import Mathlib

/-!
Shallow embedding of the HDFC Investright broker adapter
(src/broker/hdfc_investright) of the openalgo repository.

Modelling conventions:
- Python values flowing through the adapter are modelled by the inductive
  type `Val` (None, strings, ints, floats as rationals, lists, dicts).
  Dicts are association lists in insertion order with unique keys, which is
  how every dict in this module is built.
- Fallible Python code is modelled in the `Except String` monad; a thrown
  exception is `Except.error msg`.  A try/except block becomes a `match` on
  the `Except` value of the body.
- The HTTP transport (the shared httpx client) is external; the outcome of
  the single HTTP request a gateway function performs is passed in as a
  parameter of type `Except String HttpResp`: `Except.error e` is the
  transport raising exception `e`, `Except.ok r` is a completed response
  with status code `r.code` and body `r.body` (empty text, parseable JSON,
  or unparseable text).  Acquiring the shared client (`get_httpx_client`)
  is modelled as always succeeding.
- The external symbol resolver (`get_br_symbol` / `get_oa_symbol` from
  database.token_db) is passed in as a parameter of type `Resolver`; it
  may return any value (None on a failed lookup) or raise.
- Environment variables read by auth_api are packaged in `AuthEnv`, holding
  the strings `os.getenv` returns (the empty string when unset).
- Logging calls have no observable effect and are omitted.
-/

/-- Python-like runtime values: None, str, int, float (as a rational),
list and dict (association list in insertion order). -/
inductive Val where
  | none : Val
  | str : String → Val
  | int : Int → Val
  | rat : Rat → Val
  | list : List Val → Val
  | dict : List (String × Val) → Val

/-- Association-list form of a Python dict. -/
abbrev Rec := List (String × Val)

/-- External symbol resolver (get_br_symbol / get_oa_symbol): takes the two
arguments the adapter passes and either returns a value or raises. -/
abbrev Resolver := Val → Val → Except String Val

/-- Body of a completed HTTP response: empty text, a parsed JSON value, or
text that response.json() fails to parse. -/
inductive Body where
  | empty : Body
  | json : Val → Body
  | unparseable : Body

/-- A completed HTTP response: status code plus body. -/
structure HttpResp where
  code : Nat
  body : Body

/-- Environment configuration read by auth_api via os.getenv: the strings
returned, with the empty string standing for an unset variable. -/
structure AuthEnv where
  api_key : String
  api_secret : String
  redirect_uri : String

/-- Lookup of a key in a dict (first occurrence; keys are unique). -/
def rlookup (r : Rec) (k : String) : Option Val :=
  (r.find? (fun p => p.1 == k)).map (fun p => p.2)

/-- Python dict.get(k, d). -/
def rgetD (r : Rec) (k : String) (d : Val) : Val :=
  (rlookup r k).getD d

/-- Python v.get(k) on an arbitrary value: AttributeError when v is not a
dict, otherwise the value (None when the key is absent). -/
def vget (v : Val) (k : String) : Except String Val :=
  match v with
  | .dict r => .ok (rgetD r k Val.none)
  | _ => .error "AttributeError"

/-- Python v.get(k, d) on an arbitrary value. -/
def vgetD (v : Val) (k : String) (d : Val) : Except String Val :=
  match v with
  | .dict r => .ok (rgetD r k d)
  | _ => .error "AttributeError"

/-- Reading a field of a result record in theorem statements: the value
under key k, Val.none when absent or when v is not a dict. -/
def pyGet (v : Val) (k : String) : Val :=
  match v with
  | .dict r => rgetD r k Val.none
  | _ => Val.none

/-- Python truthiness of a value. -/
def truthy : Val → Bool
  | .none => false
  | .str s => s != ""
  | .int n => n != 0
  | .rat q => q != 0
  | .list l => !l.isEmpty
  | .dict r => !r.isEmpty

mutual

/-- Python equality (==) between two values: None equals only None, numbers
compare across int/float, strings by content, lists and dicts pointwise. -/
def pyEqVal : Val → Val → Bool
  | .none, .none => true
  | .str a, .str b => a == b
  | .int a, .int b => a == b
  | .int a, .rat b => (a : Rat) == b
  | .rat a, .int b => a == (b : Rat)
  | .rat a, .rat b => a == b
  | .list a, .list b => pyEqList a b
  | .dict a, .dict b => pyEqDict a b
  | _, _ => false

/-- Pointwise Python equality of two lists. -/
def pyEqList : List Val → List Val → Bool
  | [], [] => true
  | a :: as, b :: bs => pyEqVal a b && pyEqList as bs
  | _, _ => false

/-- Pointwise Python equality of two dicts (in insertion order, which is how
every dict in this module is built). -/
def pyEqDict : List (String × Val) → List (String × Val) → Bool
  | [], [] => true
  | (k, a) :: as, (l, b) :: bs => k == l && pyEqVal a b && pyEqDict as bs
  | _, _ => false

end

/-- Python float-to-int truncation toward zero. -/
def pyTrunc (q : Rat) : Int :=
  if 0 ≤ q then Int.floor q else - Int.floor (-q)

/-- Python int(v): ints pass through, floats truncate toward zero, integer
strings parse, everything else raises. -/
def pyInt : Val → Except String Int
  | .int n => .ok n
  | .rat q => .ok (pyTrunc q)
  | .str s =>
    match s.toInt? with
    | some n => .ok n
    | Option.none => .error "ValueError"
  | _ => .error "TypeError"

/-- Python float(v): numbers pass through; of the string forms float()
accepts, the integer-string fragment (the only one this adapter meets) is
modelled; everything else raises. -/
def pyFloat : Val → Except String Rat
  | .int n => .ok (n : Rat)
  | .rat q => .ok q
  | .str s =>
    match s.toInt? with
    | some n => .ok ((n : Int) : Rat)
    | Option.none => .error "ValueError"
  | _ => .error "TypeError"

/-- Python dict key assignment d[k] = v: replace an existing key in place,
otherwise append at the end (insertion order). -/
def pySet (r : Rec) (k : String) (v : Val) : Rec :=
  if r.any (fun p => p.1 == k) then
    r.map (fun p => if p.1 == k then (k, v) else p)
  else r ++ [(k, v)]

/-- Python iteration over a value: lists yield elements, strings yield
one-character strings, dicts yield their keys, the rest raise TypeError. -/
def pyIter : Val → Except String (List Val)
  | .list l => .ok l
  | .str s => .ok (s.toList.map (fun c => Val.str c.toString))
  | .dict r => .ok (r.map (fun p => Val.str p.1))
  | _ => .error "TypeError"

/-- Structured error record built at every except-branch of the gateways. -/
def errRec (e : String) : Val :=
  .dict [("status", .str "error"), ("message", .str e)]

/-- Lookup of a Python value in a str-to-str mapping table: only string keys
can match, anything else falls through to the default of .get. -/
def tlookup (t : List (String × String)) (k : Val) : Option String :=
  match k with
  | .str s => (t.find? (fun p => p.1 == s)).map (fun p => p.2)
  | _ => Option.none

/-- Python table.get(k, d) on a str-to-str mapping table. -/
def tgetD (t : List (String × String)) (k : Val) (d : String) : String :=
  (tlookup t k).getD d

/-! Mapping tables of transform_data.py. -/

/-- Order type mapping (platform to broker). -/
def ORDER_TYPE_MAP : List (String × String) :=
  [("MARKET", "MKT"), ("LIMIT", "LMT"), ("STOP_LOSS", "SL"), ("STOP_LOSS_LIMIT", "SLL")]

/-- Reverse order type mapping, built by inverting ORDER_TYPE_MAP as the
source does with a dict comprehension. -/
def ORDER_TYPE_REVERSE_MAP : List (String × String) :=
  ORDER_TYPE_MAP.map (fun p => (p.2, p.1))

/-- Product type mapping (platform to broker, many-to-one on aliases). -/
def PRODUCT_MAP : List (String × String) :=
  [("MIS", "MIS"), ("INTRADAY", "MIS"), ("CNC", "CNC"), ("DELIVERY", "CNC"),
   ("NRML", "NRML"), ("MARGIN", "NRML")]

/-- Reverse product mapping (one-to-one). -/
def PRODUCT_REVERSE_MAP : List (String × String) :=
  [("MIS", "MIS"), ("CNC", "CNC"), ("NRML", "NRML")]

/-- Side mapping (identity on BUY and SELL). -/
def SIDE_MAP : List (String × String) :=
  [("BUY", "BUY"), ("SELL", "SELL")]

/-- Validity mapping (identity on DAY, IOC, GTC). -/
def VALIDITY_MAP : List (String × String) :=
  [("DAY", "DAY"), ("IOC", "IOC"), ("GTC", "GTC")]

/-! Forward mapping: map_order_to_hdfc of transform_data.py. -/

/-- One optional-field step of map_order_to_hdfc: when order.get(k) is
truthy, convert the value (int or float, which may raise) and assign it
into the broker dict; otherwise leave the dict unchanged. -/
def addField (order : Val) (k : String) (conv : Val → Except String Val)
    (r : Rec) : Except String Rec := do
  let ov ← vgetD order k Val.none
  if truthy ov then do
    let v ← conv ov
    pure (pySet r k v)
  else
    pure r

/-- The three conditional optional-field assignments at the end of
map_order_to_hdfc: price and stop_price through float(), then
disclosed_quantity through int(). -/
def addOptional (order : Val) (r : Rec) : Except String Rec := do
  let r1 ← addField order "price" (fun v => (pyFloat v).map Val.rat) r
  let r2 ← addField order "stop_price" (fun v => (pyFloat v).map Val.rat) r1
  addField order "disclosed_quantity" (fun v => (pyInt v).map Val.int) r2

/-- The seven mandatory fields of the broker order dict built by
map_order_to_hdfc, from the already-extracted input values. -/
def orderBase (br_symbol exchange sidev otv pv vv : Val) (qty : Int) : Rec :=
  [("symbol", br_symbol), ("exchange", exchange),
   ("side", .str (tgetD SIDE_MAP sidev "BUY")),
   ("quantity", .int qty),
   ("order_type", .str (tgetD ORDER_TYPE_MAP otv "MKT")),
   ("product", .str (tgetD PRODUCT_MAP pv "MIS")),
   ("validity", .str (tgetD VALIDITY_MAP vv "DAY"))]

/-- map_order_to_hdfc: convert a platform order to the broker format.  The
symbol is resolved through get_br_symbol with fallback to the unresolved
symbol when the result is falsy; side, order type, product and validity go
through the fixed tables with defaults; quantity through int(); price,
stop_price and disclosed_quantity are added only when present and truthy.
Any exception is logged and re-raised, so it propagates as Except.error. -/
def map_order_to_hdfc (get_br : Resolver) (order : Val) : Except String Val := do
  let symbol ← vgetD order "symbol" (.str "")
  let exchange ← vgetD order "exchange" (.str "")
  let br ← get_br symbol exchange
  let br_symbol := if truthy br then br else symbol
  let sidev ← vgetD order "side" (.str "BUY")
  let qv ← vgetD order "quantity" (.int 0)
  let qty ← pyInt qv
  let otv ← vgetD order "order_type" (.str "MARKET")
  let pv ← vgetD order "product" (.str "MIS")
  let vv ← vgetD order "validity" (.str "DAY")
  let r ← addOptional order (orderBase br_symbol exchange sidev otv pv vv qty)
  pure (Val.dict r)

/-! Reverse mappings of transform_data.py.  Each wraps its body in
try/except and returns the original input record on any exception. -/

/-- Body of map_hdfc_order_response (the try-block). -/
def map_hdfc_order_response_body (get_oa : Resolver) (h : Val) : Except String Val := do
  let exchange ← vgetD h "exchange" (.str "")
  let br_symbol ← vgetD h "symbol" (.str "")
  let oa ← get_oa br_symbol exchange
  let oa_symbol := if truthy oa then oa else br_symbol
  let oid ← vgetD h "order_id" (.str "")
  let sidev ← vgetD h "side" (.str "")
  let qv ← vgetD h "quantity" (.int 0)
  let prv ← vgetD h "price" (.int 0)
  let otv ← vgetD h "order_type" (.str "MKT")
  let pv ← vgetD h "product" (.str "MIS")
  let stv ← vgetD h "status" (.str "")
  let fq ← vgetD h "filled_quantity" (.int 0)
  let pq ← vgetD h "pending_quantity" (.int 0)
  let ap ← vgetD h "average_price" (.int 0)
  let ts ← vgetD h "created_at" (.str "")
  pure (.dict
    [("order_id", oid), ("symbol", oa_symbol), ("exchange", exchange),
     ("side", sidev), ("quantity", qv), ("price", prv),
     ("order_type", .str (tgetD ORDER_TYPE_REVERSE_MAP otv "MARKET")),
     ("product", .str (tgetD PRODUCT_REVERSE_MAP pv "MIS")),
     ("order_status", stv), ("filled_quantity", fq),
     ("pending_quantity", pq), ("average_price", ap), ("timestamp", ts)])

/-- map_hdfc_order_response: convert a broker order response to platform
format; on any exception the original broker record is returned. -/
def map_hdfc_order_response (get_oa : Resolver) (h : Val) : Val :=
  match map_hdfc_order_response_body get_oa h with
  | .ok v => v
  | .error _ => h

/-- Body of map_hdfc_trade_response (the try-block). -/
def map_hdfc_trade_response_body (get_oa : Resolver) (h : Val) : Except String Val := do
  let exchange ← vgetD h "exchange" (.str "")
  let br_symbol ← vgetD h "symbol" (.str "")
  let oa ← get_oa br_symbol exchange
  let oa_symbol := if truthy oa then oa else br_symbol
  let tid ← vgetD h "trade_id" (.str "")
  let oid ← vgetD h "order_id" (.str "")
  let sidev ← vgetD h "side" (.str "")
  let qv ← vgetD h "quantity" (.int 0)
  let prv ← vgetD h "price" (.int 0)
  let ts ← vgetD h "executed_at" (.str "")
  pure (.dict
    [("trade_id", tid), ("order_id", oid), ("symbol", oa_symbol),
     ("exchange", exchange), ("side", sidev), ("quantity", qv),
     ("price", prv), ("timestamp", ts)])

/-- map_hdfc_trade_response: convert a broker trade to platform format; on
any exception the original broker record is returned. -/
def map_hdfc_trade_response (get_oa : Resolver) (h : Val) : Val :=
  match map_hdfc_trade_response_body get_oa h with
  | .ok v => v
  | .error _ => h

/-- Body of map_hdfc_position (the try-block). -/
def map_hdfc_position_body (get_oa : Resolver) (h : Val) : Except String Val := do
  let exchange ← vgetD h "exchange" (.str "")
  let br_symbol ← vgetD h "symbol" (.str "")
  let oa ← get_oa br_symbol exchange
  let oa_symbol := if truthy oa then oa else br_symbol
  let qv ← vgetD h "quantity" (.int 0)
  let pv ← vgetD h "product" (.str "MIS")
  let ap ← vgetD h "average_price" (.int 0)
  let pnl ← vgetD h "pnl" (.int 0)
  let pnlp ← vgetD h "pnl_percentage" (.int 0)
  pure (.dict
    [("symbol", oa_symbol), ("exchange", exchange), ("quantity", qv),
     ("product", .str (tgetD PRODUCT_REVERSE_MAP pv "MIS")),
     ("price", ap), ("pnl", pnl), ("pnl_percentage", pnlp)])

/-- map_hdfc_position: convert a broker position to platform format; on any
exception the original broker record is returned. -/
def map_hdfc_position (get_oa : Resolver) (h : Val) : Val :=
  match map_hdfc_position_body get_oa h with
  | .ok v => v
  | .error _ => h

/-- Body of map_hdfc_holding (the try-block). -/
def map_hdfc_holding_body (get_oa : Resolver) (h : Val) : Except String Val := do
  let exchange ← vgetD h "exchange" (.str "")
  let br_symbol ← vgetD h "symbol" (.str "")
  let oa ← get_oa br_symbol exchange
  let oa_symbol := if truthy oa then oa else br_symbol
  let qv ← vgetD h "quantity" (.int 0)
  let ap ← vgetD h "average_price" (.int 0)
  let vv ← vgetD h "value" (.int 0)
  let pnl ← vgetD h "pnl" (.int 0)
  pure (.dict
    [("symbol", oa_symbol), ("exchange", exchange), ("quantity", qv),
     ("price", ap), ("value", vv), ("pnl", pnl)])

/-- map_hdfc_holding: convert a broker holding to platform format; on any
exception the original broker record is returned. -/
def map_hdfc_holding (get_oa : Resolver) (h : Val) : Val :=
  match map_hdfc_holding_body get_oa h with
  | .ok v => v
  | .error _ => h

/-! Order Gateway: order_api.py.  Each function performs one HTTP request;
its outcome is the resp parameter. -/

/-- get_api_response of order_api.py: dispatch on the HTTP method (an
unsupported method raises ValueError inside the try and is caught like any
other exception); 200/201 returns the parsed body or a synthesized success
record when the body is empty; any other status returns the parsed error
body or an empty dict; a transport exception or an unparseable body yields
the structured error record. -/
def order_get_api_response (method : String) (resp : Except String HttpResp) : Val :=
  if method == "GET" || method == "POST" || method == "PUT" || method == "DELETE" then
    match resp with
    | .error e => errRec e
    | .ok r =>
      if r.code == 200 || r.code == 201 then
        match r.body with
        | .empty => .dict [("status", .str "success")]
        | .json v => v
        | .unparseable => errRec "JSONDecodeError"
      else
        match r.body with
        | .empty => .dict []
        | .json v => v
        | .unparseable => errRec "JSONDecodeError"
  else errRec ("Unsupported method: " ++ method)

/-- Body of place_order (the try-block): forward-map the order (this can
raise and is then caught by place_order), serialize it as the request
payload, perform the POST and reverse-map the response. -/
def place_order_body (get_br get_oa : Resolver) (resp : Except String HttpResp)
    (order : Val) : Except String Val := do
  let _hdfc_order ← map_order_to_hdfc get_br order
  pure (map_hdfc_order_response get_oa (order_get_api_response "POST" resp))

/-- place_order: on any exception in the body returns the structured error
record. -/
def place_order (get_br get_oa : Resolver) (resp : Except String HttpResp)
    (order : Val) : Val :=
  match place_order_body get_br get_oa resp order with
  | .ok v => v
  | .error e => errRec e

/-- Body of cancel_order (the try-block): one DELETE request, response
returned verbatim.  Nothing in the body can raise under the model. -/
def cancel_order_body (order_id : String) (resp : Except String HttpResp) :
    Except String Val :=
  pure (order_get_api_response "DELETE" resp)

/-- cancel_order: on any exception in the body returns the structured error
record. -/
def cancel_order (order_id : String) (resp : Except String HttpResp) : Val :=
  match cancel_order_body order_id resp with
  | .ok v => v
  | .error e => errRec e

/-- Body of get_order_book (the try-block): a GET, then an early error
envelope when the response signals status error, otherwise every element of
the orders list is reverse-mapped. -/
def get_order_book_body (get_oa : Resolver) (resp : Except String HttpResp) :
    Except String Val := do
  let response := order_get_api_response "GET" resp
  let st ← vget response "status"
  if pyEqVal st (.str "error") then
    pure (.dict [("status", .str "error"), ("orders", .list [])])
  else do
    let ov ← vgetD response "orders" (.list [])
    let ol ← pyIter ov
    pure (.dict [("status", .str "success"),
                 ("orders", .list (ol.map (map_hdfc_order_response get_oa)))])

/-- get_order_book: on any exception returns the error envelope with an
empty orders list. -/
def get_order_book (get_oa : Resolver) (resp : Except String HttpResp) : Val :=
  match get_order_book_body get_oa resp with
  | .ok v => v
  | .error _ => .dict [("status", .str "error"), ("orders", .list [])]

/-- Body of get_trade_book (the try-block). -/
def get_trade_book_body (get_oa : Resolver) (resp : Except String HttpResp) :
    Except String Val := do
  let response := order_get_api_response "GET" resp
  let st ← vget response "status"
  if pyEqVal st (.str "error") then
    pure (.dict [("status", .str "error"), ("trades", .list [])])
  else do
    let tv ← vgetD response "trades" (.list [])
    let tl ← pyIter tv
    pure (.dict [("status", .str "success"),
                 ("trades", .list (tl.map (map_hdfc_trade_response get_oa)))])

/-- get_trade_book: on any exception returns the error envelope with an
empty trades list. -/
def get_trade_book (get_oa : Resolver) (resp : Except String HttpResp) : Val :=
  match get_trade_book_body get_oa resp with
  | .ok v => v
  | .error _ => .dict [("status", .str "error"), ("trades", .list [])]

/-- Body of get_positions (the try-block). -/
def get_positions_body (get_oa : Resolver) (resp : Except String HttpResp) :
    Except String Val := do
  let response := order_get_api_response "GET" resp
  let st ← vget response "status"
  if pyEqVal st (.str "error") then
    pure (.dict [("status", .str "error"), ("positions", .list [])])
  else do
    let pv ← vgetD response "positions" (.list [])
    let pl ← pyIter pv
    pure (.dict [("status", .str "success"),
                 ("positions", .list (pl.map (map_hdfc_position get_oa)))])

/-- get_positions: on any exception returns the error envelope with an
empty positions list. -/
def get_positions (get_oa : Resolver) (resp : Except String HttpResp) : Val :=
  match get_positions_body get_oa resp with
  | .ok v => v
  | .error _ => .dict [("status", .str "error"), ("positions", .list [])]

/-- Body of get_holdings (the try-block). -/
def get_holdings_body (get_oa : Resolver) (resp : Except String HttpResp) :
    Except String Val := do
  let response := order_get_api_response "GET" resp
  let st ← vget response "status"
  if pyEqVal st (.str "error") then
    pure (.dict [("status", .str "error"), ("holdings", .list [])])
  else do
    let hv ← vgetD response "holdings" (.list [])
    let hl ← pyIter hv
    pure (.dict [("status", .str "success"),
                 ("holdings", .list (hl.map (map_hdfc_holding get_oa)))])

/-- get_holdings: on any exception returns the error envelope with an
empty holdings list. -/
def get_holdings (get_oa : Resolver) (resp : Except String HttpResp) : Val :=
  match get_holdings_body get_oa resp with
  | .ok v => v
  | .error _ => .dict [("status", .str "error"), ("holdings", .list [])]

/-- The linear scan of get_open_position: for each element, compare its
field under the key tradingsymbol with the resolved broker symbol and (only
then, by short-circuit) its exchange field with the queried exchange; the
field accesses raise on a non-dict element; an empty dict is returned when
nothing matches. -/
def findPosition (br_symbol : Val) (exchange : String) :
    List Val → Except String Val
  | [] => .ok (.dict [])
  | p :: ps => do
    let ts ← vget p "tradingsymbol"
    if pyEqVal ts br_symbol then do
      let ex ← vget p "exchange"
      if pyEqVal ex (.str exchange) then
        pure p
      else
        findPosition br_symbol exchange ps
    else
      findPosition br_symbol exchange ps

/-- Body of get_open_position (the try-block): fetch the full (already
reverse-mapped) positions list, resolve the queried platform symbol to the
broker symbol with no fallback, and scan.  The producttype argument is
never read. -/
def get_open_position_body (get_br get_oa : Resolver)
    (resp : Except String HttpResp)
    (tradingsymbol exchange producttype : String) : Except String Val := do
  let positions_response := get_positions get_oa resp
  let pv ← vgetD positions_response "positions" (.list [])
  let br_symbol ← get_br (.str tradingsymbol) (.str exchange)
  let pl ← pyIter pv
  findPosition br_symbol exchange pl

/-- get_open_position: on any exception returns an empty dict. -/
def get_open_position (get_br get_oa : Resolver)
    (resp : Except String HttpResp)
    (tradingsymbol exchange producttype : String) : Val :=
  match get_open_position_body get_br get_oa resp tradingsymbol exchange producttype with
  | .ok v => v
  | .error _ => .dict []

/-! Market Data Gateway: data_api.py. -/

/-- get_api_response of data_api.py: the parsed body is returned verbatim
regardless of the status code (an empty body gives an empty dict); a
transport exception or an unparseable body yields the structured error
record.  The method parameter only selects which client call performs the
request. -/
def data_get_api_response (method : String) (resp : Except String HttpResp) : Val :=
  match resp with
  | .error e => errRec e
  | .ok r =>
    match r.body with
    | .empty => .dict []
    | .json v => v
    | .unparseable => errRec "JSONDecodeError"

/-- get_quotes: builds the query parameters and performs one GET.  The
try-block cannot raise under the model (get_api_response catches every
exception itself), so the except branch returning a bare error record is
unreachable and the response is returned as is. -/
def get_quotes (symbol exchange : String) (resp : Except String HttpResp) : Val :=
  data_get_api_response "GET" resp

/-- get_history: builds the query parameters and performs one GET.  The
try-block cannot raise under the model (get_api_response catches every
exception itself), so the except branch that would return a record with
status error and an empty candles list is unreachable and the response is
returned as is. -/
def get_history (symbol exchange interval start_date end_date : String)
    (resp : Except String HttpResp) : Val :=
  data_get_api_response "GET" resp

/-- get_depth: builds the query parameters and performs one GET.  The
try-block cannot raise under the model, so the except branch is unreachable
and the response is returned as is. -/
def get_depth (symbol exchange : String) (resp : Except String HttpResp) : Val :=
  data_get_api_response "GET" resp

/-! Auth Manager: auth_api.py. -/

/-- get_access_token: returns None when the api key or secret is unset
(falsy), on a transport exception, on any non-200 status, and when
response.json() fails on a 200 response (empty or unparseable body);
returns the parsed token body on a parseable 200.  The whole body sits in a
try/except returning None, so the function never raises. -/
def get_access_token (env : AuthEnv) (post : Except String HttpResp)
    (authorization_code : String) : Option Val :=
  if env.api_key == "" || env.api_secret == "" then
    Option.none
  else
    match post with
    | .error _ => Option.none
    | .ok r =>
      if r.code == 200 then
        match r.body with
        | .json v => some v
        | _ => Option.none
      else Option.none

/-- refresh_access_token: same contract as get_access_token with the
refresh-token grant. -/
def refresh_access_token (env : AuthEnv) (post : Except String HttpResp)
    (refresh_token : String) : Option Val :=
  if env.api_key == "" || env.api_secret == "" then
    Option.none
  else
    match post with
    | .error _ => Option.none
    | .ok r =>
      if r.code == 200 then
        match r.body with
        | .json v => some v
        | _ => Option.none
      else Option.none

/-- Hypothesis that one enumerated input field of an order is absent or is
not a key of its fixed mapping table. -/
def unknownField (order : Rec) (k : String) (t : List (String × String)) : Prop :=
  rlookup order k = Option.none ∨
    ∃ v, rlookup order k = some v ∧ tlookup t v = Option.none

/-- Hypothesis that the numeric conversions map_order_to_hdfc performs on an
order all succeed: int() on the quantity, float() on price and stop_price
when present and truthy, int() on disclosed_quantity when present and
truthy. -/
def numericsOk (order : Rec) : Prop :=
  (∃ n, pyInt (rgetD order "quantity" (.int 0)) = .ok n) ∧
  (truthy (rgetD order "price" Val.none) = true →
    ∃ q, pyFloat (rgetD order "price" Val.none) = .ok q) ∧
  (truthy (rgetD order "stop_price" Val.none) = true →
    ∃ q, pyFloat (rgetD order "stop_price" Val.none) = .ok q) ∧
  (truthy (rgetD order "disclosed_quantity" Val.none) = true →
    ∃ n, pyInt (rgetD order "disclosed_quantity" Val.none) = .ok n)

/-! Helper lemmas about the embedding. -/

/-- Bind on a successful Except computation steps to the continuation. -/
@[simp] theorem ebind_ok {α β : Type} (a : α) (f : α → Except String β) :
    (Except.ok a >>= f) = f a := rfl

/-- Bind on a failed Except computation propagates the error. -/
@[simp] theorem ebind_error {α β : Type} (e : String) (f : α → Except String β) :
    ((Except.error e : Except String α) >>= f) = .error e := rfl

/-- Pure in the Except monad is ok. -/
@[simp] theorem epure_eq {α : Type} (a : α) :
    (pure a : Except String α) = .ok a := rfl

/-- vgetD on a dict reduces to the association-list lookup. -/
@[simp] theorem vgetD_dict (r : Rec) (k : String) (d : Val) :
    vgetD (.dict r) k d = .ok (rgetD r k d) := rfl

/-- vget on a dict reduces to the association-list lookup. -/
@[simp] theorem vget_dict (r : Rec) (k : String) :
    vget (.dict r) k = .ok (rgetD r k Val.none) := rfl

/-- Lookup on a cons cell compares the head key first. -/
theorem rlookup_cons (k1 : String) (v : Val) (r : Rec) (k : String) :
    rlookup ((k1, v) :: r) k = if k1 == k then some v else rlookup r k := by
  by_cases h : (k1 == k) = true <;> simp [rlookup, List.find?_cons, h]

/-- Lookup on the empty dict is none. -/
theorem rlookup_nil (k : String) : rlookup [] k = Option.none := rfl

/-- Negated boolean equality of strings, symmetric form. -/
theorem sbeq_false_symm {a b : String} (h : (a == b) = false) : (b == a) = false :=
  beq_eq_false_iff_ne.mpr (Ne.symm (beq_eq_false_iff_ne.mp h))

/-- Replacing the value under one key leaves lookups of other keys alone. -/
theorem rlookup_map_replace (r : Rec) (k : String) (v : Val) (k2 : String)
    (h : (k2 == k) = false) :
    rlookup (r.map (fun p => if p.1 == k then (k, v) else p)) k2 = rlookup r k2 := by
  induction r with
  | nil => rfl
  | cons hd tl ih =>
    obtain ⟨k1, v1⟩ := hd
    by_cases h1 : (k1 == k) = true
    · have hk1 : k1 = k := by simpa using h1
      subst hk1
      simp only [List.map, h1, if_true, rlookup_cons, ih]
      rw [if_neg (by simp [sbeq_false_symm h]), if_neg (by simp [sbeq_false_symm h])]
    · simp only [List.map, h1, if_false, Bool.false_eq_true, rlookup_cons, ih]

/-- Appending an entry under a fresh key leaves lookups of other keys
alone. -/
theorem rlookup_append_ne (r : Rec) (k : String) (v : Val) (k2 : String)
    (h : (k2 == k) = false) :
    rlookup (r ++ [(k, v)]) k2 = rlookup r k2 := by
  induction r with
  | nil => simp [rlookup_cons, sbeq_false_symm h, rlookup_nil]
  | cons hd tl ih =>
    obtain ⟨k1, v1⟩ := hd
    rw [List.cons_append, rlookup_cons, rlookup_cons, ih]

/-- Python dict assignment under one key leaves lookups of other keys
alone. -/
theorem rlookup_pySet_ne (r : Rec) (k : String) (v : Val) (k2 : String)
    (h : (k2 == k) = false) :
    rlookup (pySet r k v) k2 = rlookup r k2 := by
  unfold pySet
  split
  · exact rlookup_map_replace r k v k2 h
  · exact rlookup_append_ne r k v k2 h

/-- When an addField step succeeds, lookups under every other key are
unchanged. -/
theorem addField_ok_lookup (order : Val) (k : String)
    (conv : Val → Except String Val) (r r2 : Rec)
    (hk : addField order k conv r = .ok r2) (k2 : String)
    (h : (k2 == k) = false) : rlookup r2 k2 = rlookup r k2 := by
  unfold addField at hk
  cases ho : vgetD order k Val.none with
  | error e => rw [ho] at hk; simp at hk
  | ok ov =>
    rw [ho] at hk
    simp only [ebind_ok] at hk
    by_cases ht : truthy ov = true
    · rw [if_pos ht] at hk
      cases hc : conv ov with
      | error e => rw [hc] at hk; simp at hk
      | ok w =>
        rw [hc] at hk
        simp only [ebind_ok, epure_eq] at hk
        injection hk with hk2
        subst hk2
        exact rlookup_pySet_ne r k w k2 h
    · rw [if_neg ht] at hk
      simp only [epure_eq] at hk
      injection hk with hk2
      subst hk2
      rfl

/-- An addField step on a dict succeeds whenever its conversion succeeds on
a truthy field value. -/
theorem addField_dict_ok (order : Rec) (k : String)
    (conv : Val → Except String Val) (r : Rec)
    (hc : truthy (rgetD order k Val.none) = true →
      ∃ w, conv (rgetD order k Val.none) = .ok w) :
    ∃ r2, addField (.dict order) k conv r = .ok r2 := by
  unfold addField
  simp only [vgetD_dict, ebind_ok]
  by_cases ht : truthy (rgetD order k Val.none) = true
  · obtain ⟨w, hw⟩ := hc ht
    rw [if_pos ht, hw]
    exact ⟨pySet r k w, rfl⟩
  · rw [if_neg ht]
    exact ⟨r, rfl⟩

/-- When the three optional-field steps succeed, lookups under keys other
than price, stop_price and disclosed_quantity are unchanged. -/
theorem addOptional_lookup (order : Val) (r r3 : Rec)
    (h : addOptional order r = .ok r3) (k2 : String)
    (h1 : (k2 == "price") = false) (h2 : (k2 == "stop_price") = false)
    (h3 : (k2 == "disclosed_quantity") = false) :
    rlookup r3 k2 = rlookup r k2 := by
  unfold addOptional at h
  cases ha : addField order "price" (fun v => (pyFloat v).map Val.rat) r with
  | error e => rw [ha] at h; simp at h
  | ok r1 =>
    rw [ha] at h
    simp only [ebind_ok] at h
    cases hb : addField order "stop_price" (fun v => (pyFloat v).map Val.rat) r1 with
    | error e => rw [hb] at h; simp at h
    | ok r2 =>
      rw [hb] at h
      simp only [ebind_ok] at h
      calc rlookup r3 k2
          = rlookup r2 k2 := addField_ok_lookup order _ _ r2 r3 h k2 h3
        _ = rlookup r1 k2 := addField_ok_lookup order _ _ r1 r2 hb k2 h2
        _ = rlookup r k2 := addField_ok_lookup order _ _ r r1 ha k2 h1

/-- The three optional-field steps on a dict succeed whenever each numeric
conversion succeeds on its truthy field value. -/
theorem addOptional_dict_ok (order : Rec) (r : Rec)
    (h1 : truthy (rgetD order "price" Val.none) = true →
      ∃ q, pyFloat (rgetD order "price" Val.none) = .ok q)
    (h2 : truthy (rgetD order "stop_price" Val.none) = true →
      ∃ q, pyFloat (rgetD order "stop_price" Val.none) = .ok q)
    (h3 : truthy (rgetD order "disclosed_quantity" Val.none) = true →
      ∃ n, pyInt (rgetD order "disclosed_quantity" Val.none) = .ok n) :
    ∃ r3, addOptional (.dict order) r = .ok r3 := by
  obtain ⟨r1, ha⟩ := addField_dict_ok order "price" (fun v => (pyFloat v).map Val.rat) r
    (fun ht => by obtain ⟨q, hq⟩ := h1 ht; exact ⟨.rat q, by simp only [hq]; rfl⟩)
  obtain ⟨r2, hb⟩ := addField_dict_ok order "stop_price" (fun v => (pyFloat v).map Val.rat) r1
    (fun ht => by obtain ⟨q, hq⟩ := h2 ht; exact ⟨.rat q, by simp only [hq]; rfl⟩)
  obtain ⟨r3, hc⟩ := addField_dict_ok order "disclosed_quantity" (fun v => (pyInt v).map Val.int) r2
    (fun ht => by obtain ⟨n, hn⟩ := h3 ht; exact ⟨.int n, by simp only [hn]; rfl⟩)
  refine ⟨r3, ?_⟩
  unfold addOptional
  rw [ha]
  simp only [ebind_ok]
  rw [hb]
  simp only [ebind_ok]
  exact hc

/-- Inversion of the tail of map_order_to_hdfc: a successful run yields a
dict built by the optional-field steps. -/
theorem bind_addOptional_ok {order : Val} {r : Rec} {h : Val}
    (hmap : (addOptional order r >>= fun r2 => pure (Val.dict r2)) = .ok h) :
    ∃ rec, addOptional order r = .ok rec ∧ h = .dict rec := by
  cases ha : addOptional order r with
  | error e => rw [ha] at hmap; simp at hmap
  | ok rec =>
    rw [ha] at hmap
    simp only [ebind_ok, epure_eq] at hmap
    injection hmap with hmap2
    exact ⟨rec, rfl, hmap2.symm⟩

/-- A field that is absent or unknown to its table comes out of table.get
as the default, provided the absent-case fallback key maps to that default. -/
theorem tgetD_unknown (order : Rec) (k : String) (t : List (String × String))
    (dflt d : String) (hu : unknownField order k t)
    (hd : tlookup t (.str dflt) = some d) :
    tgetD t (rgetD order k (.str dflt)) d = d := by
  rcases hu with hu | ⟨v, hv, hnone⟩
  · rw [rgetD, hu]
    simp [tgetD, hd]
  · rw [rgetD, hv]
    simp [tgetD, hnone]

/-- Inversion of a successful forward mapping: the broker order is a dict
whose enumerated fields carry the table images of the input fields. -/
theorem map_order_ok_shape (gb : Resolver) (order : Rec) (h : Val)
    (hmap : map_order_to_hdfc gb (.dict order) = .ok h) :
    ∃ rec, h = .dict rec
      ∧ rlookup rec "order_type" =
          some (.str (tgetD ORDER_TYPE_MAP (rgetD order "order_type" (.str "MARKET")) "MKT"))
      ∧ rlookup rec "product" =
          some (.str (tgetD PRODUCT_MAP (rgetD order "product" (.str "MIS")) "MIS"))
      ∧ rlookup rec "side" =
          some (.str (tgetD SIDE_MAP (rgetD order "side" (.str "BUY")) "BUY"))
      ∧ rlookup rec "validity" =
          some (.str (tgetD VALIDITY_MAP (rgetD order "validity" (.str "DAY")) "DAY")) := by
  unfold map_order_to_hdfc at hmap
  simp only [vgetD_dict, ebind_ok] at hmap
  cases hgb : gb (rgetD order "symbol" (.str "")) (rgetD order "exchange" (.str "")) with
  | error e => rw [hgb] at hmap; simp at hmap
  | ok bv =>
    rw [hgb] at hmap
    simp only [ebind_ok] at hmap
    cases hq : pyInt (rgetD order "quantity" (.int 0)) with
    | error e => rw [hq] at hmap; simp at hmap
    | ok n =>
      rw [hq] at hmap
      simp only [ebind_ok] at hmap
      obtain ⟨rec, ha, rfl⟩ := bind_addOptional_ok hmap
      refine ⟨rec, rfl, ?_, ?_, ?_, ?_⟩
      · rw [addOptional_lookup _ _ _ ha "order_type" (by decide) (by decide) (by decide)]
        rfl
      · rw [addOptional_lookup _ _ _ ha "product" (by decide) (by decide) (by decide)]
        rfl
      · rw [addOptional_lookup _ _ _ ha "side" (by decide) (by decide) (by decide)]
        rfl
      · rw [addOptional_lookup _ _ _ ha "validity" (by decide) (by decide) (by decide)]
        rfl

/-! Claim theorems. -/

/-- C1 counterexample: a broker response with a non-2xx status and an empty
body makes the Order Gateway return an empty record with no status key at
all — cancel_order hands exactly that record to the caller, refuting the
claim that every failure path yields a record carrying a status field. -/
theorem cancel_order_non2xx_empty_body_lacks_status :
    cancel_order "ORD1" (.ok ⟨500, Body.empty⟩) = Val.dict [] ∧
    pyGet (cancel_order "ORD1" (.ok ⟨500, Body.empty⟩)) "status" = Val.none :=
  ⟨rfl, rfl⟩

/-- C1 (amended): on a transport failure, cancel_order, the four list
endpoints and the three market-data functions do return a record whose
status field is the string error, and a 200 response with an empty body
yields the synthesized success record from the Order Gateway request
helper; the claim fails only for raw non-2xx broker bodies (returned
verbatim, possibly empty), for the order functions that pipe the error
record through the reverse order mapping, and for get_open_position. -/
theorem gateway_status_field_on_failure (get_oa : Resolver)
    (e order_id symbol exchange interval sd ed : String) :
    pyGet (cancel_order order_id (.error e)) "status" = .str "error" ∧
    pyGet (get_order_book get_oa (.error e)) "status" = .str "error" ∧
    pyGet (get_trade_book get_oa (.error e)) "status" = .str "error" ∧
    pyGet (get_positions get_oa (.error e)) "status" = .str "error" ∧
    pyGet (get_holdings get_oa (.error e)) "status" = .str "error" ∧
    pyGet (get_quotes symbol exchange (.error e)) "status" = .str "error" ∧
    pyGet (get_history symbol exchange interval sd ed (.error e)) "status" = .str "error" ∧
    pyGet (get_depth symbol exchange (.error e)) "status" = .str "error" ∧
    order_get_api_response "GET" (.ok ⟨200, Body.empty⟩) = .dict [("status", .str "success")] :=
  ⟨rfl, rfl, rfl, rfl, rfl, rfl, rfl, rfl, rfl⟩

/-- C2: evaluation at the failing input.  The positions response contains
exactly one position, whose broker symbol RELIANCE-EQ is what the queried
platform symbol RELIANCE resolves to and whose exchange NSE matches the
query, yet get_open_position returns the empty record: the scan reads the
key tradingsymbol, which the mapped positions never carry (they carry the
platform symbol under the key symbol), so no position can ever match. -/
theorem get_open_position_misses_matching_position :
    get_open_position (fun _ _ => .ok (.str "RELIANCE-EQ"))
      (fun _ _ => .ok (.str "RELIANCE"))
      (.ok ⟨200, Body.json (.dict [("positions", .list
        [.dict [("symbol", .str "RELIANCE-EQ"), ("exchange", .str "NSE"),
                ("quantity", .int 10), ("product", .str "MIS"),
                ("average_price", .int 2500), ("pnl", .int 0),
                ("pnl_percentage", .int 0)]])])⟩)
      "RELIANCE" "NSE" "MIS" = Val.dict [] := rfl

/-- C3 counterexample: on a transport failure get_history returns a record
with status error but no candles key at all, refuting the claim that the
error record additionally contains an empty candle list. -/
theorem get_history_transport_error_lacks_candles :
    pyGet (get_history "SBIN" "NSE" "1d" "2024-01-01" "2024-01-31" (.error "timeout"))
      "candles" = Val.none ∧
    pyGet (get_history "SBIN" "NSE" "1d" "2024-01-01" "2024-01-31" (.error "timeout"))
      "status" = .str "error" :=
  ⟨rfl, rfl⟩

/-- C3 (amended): on a transport failure get_history returns the record
with status error and the exception message but without a candle list: the
transport exception is caught inside the shared request helper, so the
except branch of get_history that would add candles never runs. -/
theorem get_history_transport_error_record (symbol exchange interval sd ed e : String) :
    get_history symbol exchange interval sd ed (.error e)
      = .dict [("status", .str "error"), ("message", .str e)] := rfl

/-- C4 counterexample: on a 200 response with an empty body, place_order
does not hand the record with a status success field to the caller — the
synthesized success record is piped through the reverse order mapping,
which yields a full order-shaped record that has no status key (the value
success survives only under order_status). -/
theorem place_order_empty_body_not_plain_success :
    pyGet (place_order (fun _ _ => .ok Val.none) (fun _ _ => .ok Val.none)
      (.ok ⟨200, Body.empty⟩) (Val.dict [])) "status" = Val.none ∧
    pyGet (place_order (fun _ _ => .ok Val.none) (fun _ _ => .ok Val.none)
      (.ok ⟨200, Body.empty⟩) (Val.dict [])) "order_status" = .str "success" :=
  ⟨rfl, rfl⟩

/-- C4 (amended): a 200 broker response with no body makes the Order
Gateway request helper synthesize the record with status success, for every
supported method, and cancel_order returns that record to the caller
unchanged and without raising; the order functions that reverse-map the
response return an order-shaped record instead. -/
theorem empty_body_success_synthesis (order_id : String) :
    order_get_api_response "GET" (.ok ⟨200, Body.empty⟩) = .dict [("status", .str "success")] ∧
    order_get_api_response "POST" (.ok ⟨200, Body.empty⟩) = .dict [("status", .str "success")] ∧
    order_get_api_response "PUT" (.ok ⟨200, Body.empty⟩) = .dict [("status", .str "success")] ∧
    order_get_api_response "DELETE" (.ok ⟨200, Body.empty⟩) = .dict [("status", .str "success")] ∧
    cancel_order order_id (.ok ⟨200, Body.empty⟩) = .dict [("status", .str "success")] :=
  ⟨rfl, rfl, rfl, rfl, rfl⟩

/-- C6: the forward product mapping is the identity on MIS, CNC and NRML
and the forward-then-reverse round trip restores them exactly; the aliases
INTRADAY, DELIVERY and MARGIN collapse forward to MIS, CNC and NRML
respectively, and the round trip does not restore the alias. -/
theorem product_map_roundtrip_and_aliases :
    (tgetD PRODUCT_REVERSE_MAP (.str (tgetD PRODUCT_MAP (.str "MIS") "MIS")) "MIS" = "MIS") ∧
    (tgetD PRODUCT_REVERSE_MAP (.str (tgetD PRODUCT_MAP (.str "CNC") "MIS")) "MIS" = "CNC") ∧
    (tgetD PRODUCT_REVERSE_MAP (.str (tgetD PRODUCT_MAP (.str "NRML") "MIS")) "MIS" = "NRML") ∧
    (tgetD PRODUCT_MAP (.str "INTRADAY") "MIS" = "MIS") ∧
    (tgetD PRODUCT_MAP (.str "DELIVERY") "MIS" = "CNC") ∧
    (tgetD PRODUCT_MAP (.str "MARGIN") "MIS" = "NRML") ∧
    (tgetD PRODUCT_REVERSE_MAP (.str (tgetD PRODUCT_MAP (.str "INTRADAY") "MIS")) "MIS" ≠ "INTRADAY") ∧
    (tgetD PRODUCT_REVERSE_MAP (.str (tgetD PRODUCT_MAP (.str "DELIVERY") "MIS")) "MIS" ≠ "DELIVERY") ∧
    (tgetD PRODUCT_REVERSE_MAP (.str (tgetD PRODUCT_MAP (.str "MARGIN") "MIS")) "MIS" ≠ "MARGIN") := by
  decide

/-- C8: when the symbol resolver raises on every input, each of the four
reverse mapping functions returns its input broker record unchanged; a
non-dict input is likewise returned unchanged because the very first field
access raises. -/
theorem reverse_mapping_returns_input_on_resolver_error (get_oa : Resolver) (v : Val)
    (hgo : ∀ a b, ∃ e, get_oa a b = Except.error e) :
    map_hdfc_order_response get_oa v = v ∧
    map_hdfc_trade_response get_oa v = v ∧
    map_hdfc_position get_oa v = v ∧
    map_hdfc_holding get_oa v = v := by
  refine ⟨?_, ?_, ?_, ?_⟩
  · cases v with
    | dict r =>
      obtain ⟨e, he⟩ := hgo (rgetD r "symbol" (.str "")) (rgetD r "exchange" (.str ""))
      simp [map_hdfc_order_response, map_hdfc_order_response_body, he]
    | none => rfl
    | str s => rfl
    | int n => rfl
    | rat q => rfl
    | list l => rfl
  · cases v with
    | dict r =>
      obtain ⟨e, he⟩ := hgo (rgetD r "symbol" (.str "")) (rgetD r "exchange" (.str ""))
      simp [map_hdfc_trade_response, map_hdfc_trade_response_body, he]
    | none => rfl
    | str s => rfl
    | int n => rfl
    | rat q => rfl
    | list l => rfl
  · cases v with
    | dict r =>
      obtain ⟨e, he⟩ := hgo (rgetD r "symbol" (.str "")) (rgetD r "exchange" (.str ""))
      simp [map_hdfc_position, map_hdfc_position_body, he]
    | none => rfl
    | str s => rfl
    | int n => rfl
    | rat q => rfl
    | list l => rfl
  · cases v with
    | dict r =>
      obtain ⟨e, he⟩ := hgo (rgetD r "symbol" (.str "")) (rgetD r "exchange" (.str ""))
      simp [map_hdfc_holding, map_hdfc_holding_body, he]
    | none => rfl
    | str s => rfl
    | int n => rfl
    | rat q => rfl
    | list l => rfl

/-- Witness for C8 at a concrete record and an always-raising resolver. -/
theorem reverse_mapping_returns_input_on_resolver_error_witness :
    map_hdfc_order_response (fun _ _ => .error "db down") (.dict [("symbol", .str "X")])
      = .dict [("symbol", .str "X")] ∧
    map_hdfc_trade_response (fun _ _ => .error "db down") (.dict [("symbol", .str "X")])
      = .dict [("symbol", .str "X")] ∧
    map_hdfc_position (fun _ _ => .error "db down") (.dict [("symbol", .str "X")])
      = .dict [("symbol", .str "X")] ∧
    map_hdfc_holding (fun _ _ => .error "db down") (.dict [("symbol", .str "X")])
      = .dict [("symbol", .str "X")] :=
  reverse_mapping_returns_input_on_resolver_error (fun _ _ => .error "db down")
    (.dict [("symbol", .str "X")]) (fun _ _ => ⟨"db down", rfl⟩)

/-- C9: when the api key or the api secret configuration is missing (the
environment read yields the empty string), both the authorization-code
exchange and the token refresh return the absent result; both functions
are total, so no exception escapes. -/
theorem token_calls_missing_credentials_return_none (env : AuthEnv)
    (post : Except String HttpResp) (authorization_code refresh_token : String)
    (h : env.api_key = "" ∨ env.api_secret = "") :
    get_access_token env post authorization_code = Option.none ∧
    refresh_access_token env post refresh_token = Option.none := by
  have hb : (env.api_key == "" || env.api_secret == "") = true := by
    rcases h with h | h <;> simp [h]
  constructor
  · unfold get_access_token
    rw [if_pos hb]
  · unfold refresh_access_token
    rw [if_pos hb]

/-- Witness for C9 with an unset api key. -/
theorem token_calls_missing_credentials_return_none_witness :
    get_access_token ⟨"", "secret", "uri"⟩ (.error "x") "code" = Option.none ∧
    refresh_access_token ⟨"", "secret", "uri"⟩ (.error "x") "rt" = Option.none :=
  token_calls_missing_credentials_return_none ⟨"", "secret", "uri"⟩ (.error "x")
    "code" "rt" (Or.inl rfl)

/-- C10: the result of get_open_position does not depend on the producttype
argument — the parameter is never read, so for a fixed resolver pair,
positions response, symbol and exchange, any two producttype values give
identical results. -/
theorem get_open_position_ignores_producttype (get_br get_oa : Resolver)
    (resp : Except String HttpResp) (tradingsymbol exchange pt1 pt2 : String) :
    get_open_position get_br get_oa resp tradingsymbol exchange pt1 =
    get_open_position get_br get_oa resp tradingsymbol exchange pt2 := rfl

/-- Existence of a successful forward mapping on a dict order when the
resolver call and every numeric conversion succeed. -/
theorem map_order_dict_ok (gb : Resolver) (order : Rec) (bv : Val) (n : Int)
    (hgb : gb (rgetD order "symbol" (.str "")) (rgetD order "exchange" (.str "")) = .ok bv)
    (hn : pyInt (rgetD order "quantity" (.int 0)) = .ok n)
    (hp : truthy (rgetD order "price" Val.none) = true →
      ∃ q, pyFloat (rgetD order "price" Val.none) = .ok q)
    (hs : truthy (rgetD order "stop_price" Val.none) = true →
      ∃ q, pyFloat (rgetD order "stop_price" Val.none) = .ok q)
    (hd : truthy (rgetD order "disclosed_quantity" Val.none) = true →
      ∃ m, pyInt (rgetD order "disclosed_quantity" Val.none) = .ok m) :
    ∃ h2, map_order_to_hdfc gb (.dict order) = .ok h2 := by
  obtain ⟨r3, ha⟩ := addOptional_dict_ok order
    (orderBase (if truthy bv then bv else rgetD order "symbol" (.str ""))
      (rgetD order "exchange" (.str "")) (rgetD order "side" (.str "BUY"))
      (rgetD order "order_type" (.str "MARKET")) (rgetD order "product" (.str "MIS"))
      (rgetD order "validity" (.str "DAY")) n)
    hp hs hd
  refine ⟨.dict r3, ?_⟩
  unfold map_order_to_hdfc
  simp only [vgetD_dict, ebind_ok]
  rw [hgb]
  simp only [ebind_ok]
  rw [hn]
  simp only [ebind_ok]
  rw [ha]
  rfl

/-- The reverse order mapping of a dict whose order_type field is a known
broker code, under a resolver that does not raise, yields the image of that
code under the reverse table. -/
theorem reverse_order_type (go : Resolver) (rec : Rec) (bt : String)
    (hgo : ∀ a b, ∃ w, go a b = Except.ok w)
    (hrt : rlookup rec "order_type" = some (.str bt)) :
    pyGet (map_hdfc_order_response go (.dict rec)) "order_type"
      = .str (tgetD ORDER_TYPE_REVERSE_MAP (.str bt) "MARKET") := by
  obtain ⟨w, hw⟩ := hgo (rgetD rec "symbol" (.str "")) (rgetD rec "exchange" (.str ""))
  have hv : rgetD rec "order_type" (.str "MKT") = .str bt := by
    rw [rgetD, hrt]
    rfl
  unfold map_hdfc_order_response map_hdfc_order_response_body
  simp only [vgetD_dict, ebind_ok]
  rw [hw]
  simp only [ebind_ok, epure_eq]
  rw [hv]
  rfl

/-- C5: for an order whose order_type is MARKET, LIMIT, STOP_LOSS or
STOP_LOSS_LIMIT, a successful forward mapping followed by the reverse
mapping (under a resolver that does not raise) reproduces the original
order_type exactly: the order type tables are mutually inverse on these
four values. -/
theorem order_type_roundtrip (gb go : Resolver) (order : Rec) (h : Val) (ot : String)
    (hmem : ot = "MARKET" ∨ ot = "LIMIT" ∨ ot = "STOP_LOSS" ∨ ot = "STOP_LOSS_LIMIT")
    (hot : rlookup order "order_type" = some (.str ot))
    (hmap : map_order_to_hdfc gb (.dict order) = .ok h)
    (hgo : ∀ a b, ∃ w, go a b = Except.ok w) :
    pyGet (map_hdfc_order_response go h) "order_type" = .str ot := by
  obtain ⟨rec, rfl, hot2, -, -, -⟩ := map_order_ok_shape gb order h hmap
  have hordv : rgetD order "order_type" (.str "MARKET") = .str ot := by
    rw [rgetD, hot]
    rfl
  rw [hordv] at hot2
  rcases hmem with rfl | rfl | rfl | rfl <;>
    rw [reverse_order_type go rec _ hgo hot2] <;> rfl

/-- Witness for C5 at a LIMIT order and resolvers that return None. -/
theorem order_type_roundtrip_witness :
    pyGet (map_hdfc_order_response (fun _ _ => .ok Val.none)
      (.dict [("symbol", .str ""), ("exchange", .str ""), ("side", .str "BUY"),
        ("quantity", .int 0), ("order_type", .str "LMT"), ("product", .str "MIS"),
        ("validity", .str "DAY")])) "order_type" = .str "LIMIT" :=
  order_type_roundtrip (fun _ _ => .ok Val.none) (fun _ _ => .ok Val.none)
    [("order_type", .str "LIMIT")]
    (.dict [("symbol", .str ""), ("exchange", .str ""), ("side", .str "BUY"),
      ("quantity", .int 0), ("order_type", .str "LMT"), ("product", .str "MIS"),
      ("validity", .str "DAY")])
    "LIMIT" (Or.inr (Or.inl rfl)) rfl rfl (fun _ _ => ⟨Val.none, rfl⟩)

/-- C7: on any order whose numeric conversions succeed and whose symbol
resolution does not raise, the forward mapping succeeds, and each
enumerated field that is absent or not a key of its table comes out as the
documented broker default: MKT for order_type, MIS for product, BUY for
side, DAY for validity. -/
theorem unknown_enum_fields_default (gb : Resolver) (order : Rec) (bv : Val)
    (hgb : gb (rgetD order "symbol" (.str "")) (rgetD order "exchange" (.str "")) = .ok bv)
    (hnum : numericsOk order) :
    ∃ h2, map_order_to_hdfc gb (.dict order) = .ok h2
      ∧ (unknownField order "order_type" ORDER_TYPE_MAP → pyGet h2 "order_type" = .str "MKT")
      ∧ (unknownField order "product" PRODUCT_MAP → pyGet h2 "product" = .str "MIS")
      ∧ (unknownField order "side" SIDE_MAP → pyGet h2 "side" = .str "BUY")
      ∧ (unknownField order "validity" VALIDITY_MAP → pyGet h2 "validity" = .str "DAY") := by
  obtain ⟨⟨n, hn⟩, hp, hs, hd⟩ := hnum
  obtain ⟨h2, hmap⟩ := map_order_dict_ok gb order bv n hgb hn hp hs hd
  obtain ⟨rec, rfl, hf1, hf2, hf3, hf4⟩ := map_order_ok_shape gb order h2 hmap
  refine ⟨.dict rec, hmap, ?_, ?_, ?_, ?_⟩
  · intro hu
    have ht := tgetD_unknown order "order_type" ORDER_TYPE_MAP "MARKET" "MKT" hu rfl
    simp only [rgetD] at ht
    simp only [pyGet, rgetD, hf1, Option.getD_some, ht]
  · intro hu
    have ht := tgetD_unknown order "product" PRODUCT_MAP "MIS" "MIS" hu rfl
    simp only [rgetD] at ht
    simp only [pyGet, rgetD, hf2, Option.getD_some, ht]
  · intro hu
    have ht := tgetD_unknown order "side" SIDE_MAP "BUY" "BUY" hu rfl
    simp only [rgetD] at ht
    simp only [pyGet, rgetD, hf3, Option.getD_some, ht]
  · intro hu
    have ht := tgetD_unknown order "validity" VALIDITY_MAP "DAY" "DAY" hu rfl
    simp only [rgetD] at ht
    simp only [pyGet, rgetD, hf4, Option.getD_some, ht]

/-- Witness for C7 at the empty order, in which all four enumerated fields
are absent. -/
theorem unknown_enum_fields_default_witness :
    ∃ h2, map_order_to_hdfc (fun _ _ => .ok Val.none) (Val.dict []) = .ok h2
      ∧ pyGet h2 "order_type" = .str "MKT" ∧ pyGet h2 "product" = .str "MIS"
      ∧ pyGet h2 "side" = .str "BUY" ∧ pyGet h2 "validity" = .str "DAY" := by
  obtain ⟨h2, hmap, f1, f2, f3, f4⟩ :=
    unknown_enum_fields_default (fun _ _ => .ok Val.none) [] Val.none rfl
      ⟨⟨0, rfl⟩, fun hc => absurd hc (by decide), fun hc => absurd hc (by decide),
        fun hc => absurd hc (by decide)⟩
  exact ⟨h2, hmap, f1 (Or.inl rfl), f2 (Or.inl rfl), f3 (Or.inl rfl), f4 (Or.inl rfl)⟩
